import Mathlib

/-!
Verification of the line-set core of the `omf` repository (`omf/lineset.py`).

The embedding below translates, statement by statement:
* `LineSetGeometry` with its `num_nodes` / `num_cells` / `location_length`
  accessors and the `_validate_mesh` validator (which calls `np.min` and
  `np.max` over the flattened segment-index array);
* `LineSetElement.toVTK`, which builds a VTK poly-data value: points from the
  vertices, one 2-point line cell per segment, a "Line Index" integer
  cell-data array produced by the segment-grouping loop, and one cell-data
  array per attached attribute.

Python errors are modelled by the `PyError` type: `ValueError` (raised by the
validator and by numpy reductions over empty arrays) and `IndexError` (raised
by out-of-bounds sequence indexing, as in `segments[0]` on an empty array).
Vertex coordinates are modelled over `ℚ`; no embedded code inspects them.
-/

set_option autoImplicit false

namespace OMF

/-- A spatial vertex: three coordinates relative to the line-set origin. -/
abbrev Vector3 := ℚ × ℚ × ℚ

/-- Errors raised by the embedded Python code. -/
inductive PyError where
  /-- Python ValueError carrying its message. -/
  | valueError (msg : String)
  /-- Python IndexError from indexing past the end of a sequence. -/
  | indexError
deriving DecidableEq, Repr

/-- Message of the ValueError numpy raises for a min-reduction of a
zero-size array. -/
def npEmptyMinMsg : String :=
  "zero-size array to reduction operation minimum which has no identity"

/-- Message of the ValueError numpy raises for a max-reduction of a
zero-size array. -/
def npEmptyMaxMsg : String :=
  "zero-size array to reduction operation maximum which has no identity"

/-- Embeds numpy min-reduction over a flattened integer array: the minimum of
the entries, or ValueError on a zero-size array. -/
def npMin (l : List Int) : Except PyError Int :=
  match l with
  | [] => .error (.valueError npEmptyMinMsg)
  | x :: xs => .ok (xs.foldl min x)

/-- Embeds numpy max-reduction over a flattened integer array: the maximum of
the entries, or ValueError on a zero-size array. -/
def npMax (l : List Int) : Except PyError Int :=
  match l with
  | [] => .error (.valueError npEmptyMaxMsg)
  | x :: xs => .ok (xs.foldl max x)

/-- The entries of the segment array flattened in row-major order, as numpy
reductions over the 2-column integer array see them. -/
def segmentIndices (segments : List (Int × Int)) : List Int :=
  segments.flatMap fun s => [s.1, s.2]

/-- Embeds `LineSetGeometry`: spatial vertex coordinates (a `Vector3Array`)
and endpoint vertex-index pairs of the line segments (an `Int2Array`). -/
structure LineSetGeometry where
  vertices : List Vector3
  segments : List (Int × Int)
deriving DecidableEq, Repr

/-- Embeds the property `num_nodes`: number of nodes (vertices). -/
def LineSetGeometry.num_nodes (g : LineSetGeometry) : Nat :=
  g.vertices.length

/-- Embeds the property `num_cells`: number of cells (segments). -/
def LineSetGeometry.num_cells (g : LineSetGeometry) : Nat :=
  g.segments.length

/-- Embeds `location_length`: return correct data length based on location. -/
def LineSetGeometry.location_length (g : LineSetGeometry) (location : String) : Nat :=
  if location = "segments" then g.num_cells else g.num_nodes

/-- The body of `_validate_mesh` as a function of the segment array and the
vertex count, exactly as the Python reads them:
raise ValueError if `np.min(segments) < 0` (numpy itself raising ValueError
on a zero-size reduction), then raise ValueError if
`np.max(segments) >= len(vertices)`, else return True. -/
def LineSetGeometry.validateSegments (segments : List (Int × Int))
    (numVertices : Nat) : Except PyError Bool :=
  match npMin (segmentIndices segments) with
  | .error e => .error e
  | .ok mn =>
    if mn < 0 then
      .error (.valueError "Segments may only have positive integers")
    else
      match npMax (segmentIndices segments) with
      | .error e => .error e
      | .ok mx =>
        if (numVertices : Int) ≤ mx then
          .error (.valueError "Segments expects more vertices than provided")
        else
          .ok true

/-- Embeds the validator `_validate_mesh`: ensures segment indices are
valid. -/
def LineSetGeometry.validate_mesh (g : LineSetGeometry) : Except PyError Bool :=
  LineSetGeometry.validateSegments g.segments g.vertices.length

/-- An attribute attached to the element, as `toVTK` and the claims see it:
its name, its declared location tag, and its scalar array
(`data.array.array`). -/
structure ProjectElementData where
  name : String
  location : String
  array : List ℚ
deriving DecidableEq, Repr

/-- Embeds `LineSetElement`: geometry, subtype choice, and attached data. -/
structure LineSetElement where
  geometry : LineSetGeometry
  subtype : String := "line"
  data : List ProjectElementData
deriving DecidableEq, Repr

/-- A named VTK data array: either an integer array (`vtkIntArray`, used for
the "Line Index" array) or a scalar array converted from numpy. -/
inductive VTKDataArray where
  | intArray (values : List Int)
  | scalarArray (values : List ℚ)
deriving DecidableEq, Repr

/-- Embeds the `vtkPolyData` output of `toVTK` as the claims observe it:
points, 2-point line cells, and the named cell-data and point-data
collections. -/
structure VTKPolyData where
  points : List Vector3
  lines : List (Int × Int)
  cellData : List (String × VTKDataArray)
  pointData : List (String × VTKDataArray)
deriving DecidableEq, Repr

/-- The segment-grouping loop of `toVTK`, tracking the running `last`
endpoint and current group id `segi`: for each segment, if its start index
differs from `last` the group id is incremented before being assigned, and
`last` becomes the segment's end index. -/
def groupStep (seg : Int × Int) (last : Int) (segi : Nat) : Nat :=
  if seg.1 ≠ last then segi + 1 else segi

def groupLoop (segments : List (Int × Int)) (last : Int) (segi : Nat) : List Nat :=
  match segments with
  | [] => []
  | seg :: rest =>
    groupStep seg last segi :: groupLoop rest seg.2 (groupStep seg last segi)

/-- The segment-grouping pass as `toVTK` performs it: `last` is initialised
to the first segment's start index and the group id to 0. -/
def segGroups (segments : List (Int × Int)) : List Nat :=
  match segments with
  | [] => []
  | seg0 :: _ => groupLoop segments seg0.1 0

/-- Embeds `LineSetElement.toVTK`. The statement
`last = self.geometry.segments[0][0]` raises IndexError when the segment
array is empty; otherwise the loop builds one line cell per segment
(endpoint ids taken from the segment unmodified) and the "Line Index"
group array, points are the vertices, and every attached attribute array is
added to the cell-data collection (`output.GetCellData().AddArray(c)`)
under its name; nothing is ever added to the point-data collection. -/
def LineSetElement.toVTK (e : LineSetElement) : Except PyError VTKPolyData :=
  match e.geometry.segments with
  | [] => .error .indexError
  | seg0 :: rest =>
    .ok
      { points := e.geometry.vertices
        lines := (seg0 :: rest).map fun seg => (seg.1, seg.2)
        cellData :=
          ("Line Index",
              VTKDataArray.intArray ((groupLoop (seg0 :: rest) seg0.1 0).map Int.ofNat))
            :: e.data.map fun d => (d.name, VTKDataArray.scalarArray d.array)
        pointData := [] }

/-- State-passing reading of `toVTK`: alongside the produced mesh it returns
the element as the call leaves it. The method body contains no assignment to
`self`, `self.geometry`, `self.geometry.vertices`, `self.geometry.segments`
or `self.data` (it only reads them and writes locally created VTK objects),
so the post-call element state is the unchanged input element. -/
def LineSetElement.toVTK_run (e : LineSetElement) :
    Except PyError (LineSetElement × VTKPolyData) :=
  match e.toVTK with
  | .error err => .error err
  | .ok out => .ok (e, out)

/-! ### Lemmas about the segment-grouping loop -/

theorem groupLoop_length (segments : List (Int × Int)) (last : Int) (segi : Nat) :
    (groupLoop segments last segi).length = segments.length := by
  induction segments generalizing last segi with
  | nil => rfl
  | cons s rest ih => simp [groupLoop, ih]

theorem le_of_mem_groupLoop (segments : List (Int × Int)) (last : Int) (segi : Nat) :
    ∀ y ∈ groupLoop segments last segi, segi ≤ y := by
  induction segments generalizing last segi with
  | nil => simp [groupLoop]
  | cons s rest ih =>
    intro y hy
    simp only [groupLoop, List.mem_cons] at hy
    rcases hy with h | h
    · subst h
      unfold groupStep
      split <;> omega
    · have hle := ih s.2 (groupStep s last segi) y h
      unfold groupStep at hle
      split at hle <;> omega

theorem groupLoop_chain (segments : List (Int × Int)) (last : Int) (segi : Nat) :
    List.Chain' (fun a b => a ≤ b) (groupLoop segments last segi) := by
  induction segments generalizing last segi with
  | nil => simp [groupLoop]
  | cons s rest ih =>
    rw [groupLoop]
    refine List.chain'_cons'.mpr ⟨?_, ih _ _⟩
    intro y hy
    exact le_of_mem_groupLoop _ _ _ y (List.mem_of_mem_head? hy)

theorem groupLoop_getD_step (segments : List (Int × Int)) (last : Int) (segi : Nat)
    (i : Nat) (h : i + 1 < segments.length) :
    (groupLoop segments last segi).getD (i + 1) 0 =
      (groupLoop segments last segi).getD i 0 +
        (if (segments.getD (i + 1) (0, 0)).1 ≠ (segments.getD i (0, 0)).2
          then 1 else 0) := by
  induction segments generalizing last segi i with
  | nil => simp at h
  | cons s rest ih =>
    match i with
    | 0 =>
      match rest with
      | [] => simp at h
      | s1 :: rest2 =>
        simp only [groupLoop, List.getD_cons_succ, List.getD_cons_zero]
        unfold groupStep
        by_cases hc : s1.1 = s.2 <;> simp [hc]
    | j + 1 =>
      have h2 : j + 1 < rest.length := by simpa using h
      simpa only [groupLoop, List.getD_cons_succ] using
        ih s.2 (groupStep s last segi) j h2

/-! ### Claim theorems (first batch) -/

/-- C1: for every non-empty segment sequence, the segment-grouping pass of
`toVTK` produces one group id per segment: the output has the same length as
the segment sequence, the first group id is 0, the group ids are
monotonically non-decreasing along the sequence, and for every i ≥ 1 the
group id increments by exactly 1 when segment i's start index differs from
segment i-1's end index and stays equal otherwise. -/
theorem C1_segment_grouping (s0 : Int × Int) (rest : List (Int × Int)) :
    (segGroups (s0 :: rest)).length = (s0 :: rest).length ∧
    (segGroups (s0 :: rest)).getD 0 0 = 0 ∧
    List.Chain' (fun a b => a ≤ b) (segGroups (s0 :: rest)) ∧
    (∀ i : Nat, i + 1 < (s0 :: rest).length →
      (segGroups (s0 :: rest)).getD (i + 1) 0 =
        (segGroups (s0 :: rest)).getD i 0 +
          (if ((s0 :: rest).getD (i + 1) (0, 0)).1 ≠ ((s0 :: rest).getD i (0, 0)).2
            then 1 else 0)) := by
  refine ⟨groupLoop_length _ _ _, ?_, groupLoop_chain _ _ _, ?_⟩
  · simp [segGroups, groupLoop, groupStep]
  · intro i h
    exact groupLoop_getD_step _ _ _ i h

/-- Witness for C1: the grouping properties evaluated at the concrete
sequence [(0,1),(1,2),(5,6)] (a chain followed by a discontinuity). -/
theorem C1_segment_grouping_witness :
    (segGroups [((0 : Int), (1 : Int)), (1, 2), (5, 6)]).length =
        ([((0 : Int), (1 : Int)), (1, 2), (5, 6)] : List (Int × Int)).length ∧
    (segGroups [((0 : Int), (1 : Int)), (1, 2), (5, 6)]).getD 0 0 = 0 ∧
    List.Chain' (fun a b => a ≤ b)
      (segGroups [((0 : Int), (1 : Int)), (1, 2), (5, 6)]) ∧
    (∀ i : Nat, i + 1 < ([((0 : Int), (1 : Int)), (1, 2), (5, 6)] : List (Int × Int)).length →
      (segGroups [((0 : Int), (1 : Int)), (1, 2), (5, 6)]).getD (i + 1) 0 =
        (segGroups [((0 : Int), (1 : Int)), (1, 2), (5, 6)]).getD i 0 +
          (if (([((0 : Int), (1 : Int)), (1, 2), (5, 6)] : List (Int × Int)).getD (i + 1) (0, 0)).1 ≠
              (([((0 : Int), (1 : Int)), (1, 2), (5, 6)] : List (Int × Int)).getD i (0, 0)).2
            then 1 else 0)) :=
  C1_segment_grouping (0, 1) [(1, 2), (5, 6)]

/-- C2: on an empty segment sequence, `toVTK` raises IndexError at
`self.geometry.segments[0][0]` — not the EmptyGeometry error the spec
prescribes — so no output mesh is produced. -/
theorem C2_empty_segments_export (vs : List Vector3) (st : String)
    (ds : List ProjectElementData) :
    LineSetElement.toVTK ⟨⟨vs, []⟩, st, ds⟩ = .error .indexError := rfl

/-- C7: num_nodes is the vertex-sequence length, num_cells is the
segment-sequence length, and location_length returns num_cells for
location "segments" and num_nodes for any other location. -/
theorem C7_counts_and_location_length (g : LineSetGeometry) (loc : String)
    (h : loc ≠ "segments") :
    g.num_nodes = g.vertices.length ∧
    g.num_cells = g.segments.length ∧
    g.location_length "segments" = g.num_cells ∧
    g.location_length loc = g.num_nodes := by
  refine ⟨rfl, rfl, ?_, ?_⟩
  · simp [LineSetGeometry.location_length]
  · simp [LineSetGeometry.location_length, h]

/-- Witness for C7 at a concrete geometry and the location "vertices". -/
theorem C7_counts_and_location_length_witness :
    ("vertices" : String) ≠ "segments" ∧
    ((⟨[(0, 0, 0)], [(0, 0)]⟩ : LineSetGeometry).num_nodes =
        (⟨[(0, 0, 0)], [(0, 0)]⟩ : LineSetGeometry).vertices.length ∧
      (⟨[(0, 0, 0)], [(0, 0)]⟩ : LineSetGeometry).num_cells =
        (⟨[(0, 0, 0)], [(0, 0)]⟩ : LineSetGeometry).segments.length ∧
      (⟨[(0, 0, 0)], [(0, 0)]⟩ : LineSetGeometry).location_length "segments" =
        (⟨[(0, 0, 0)], [(0, 0)]⟩ : LineSetGeometry).num_cells ∧
      (⟨[(0, 0, 0)], [(0, 0)]⟩ : LineSetGeometry).location_length "vertices" =
        (⟨[(0, 0, 0)], [(0, 0)]⟩ : LineSetGeometry).num_nodes) :=
  ⟨by decide, C7_counts_and_location_length _ _ (by decide)⟩

/-- C8: the validation outcome depends only on the segment sequence and the
vertex count — two geometries with equal segments and equally many vertices
validate identically, whatever their coordinates. -/
theorem C8_validation_pure (g1 g2 : LineSetGeometry)
    (hs : g1.segments = g2.segments)
    (hn : g1.vertices.length = g2.vertices.length) :
    g1.validate_mesh = g2.validate_mesh := by
  unfold LineSetGeometry.validate_mesh
  rw [hs, hn]

/-- Witness for C8: two geometries with the same segments and vertex count
but different coordinates validate identically. -/
theorem C8_validation_pure_witness :
    (⟨[(0, 0, 0), (1, 1, 1)], [(0, 1)]⟩ : LineSetGeometry).segments =
      (⟨[(9, 9, 9), (7, 7, 7)], [(0, 1)]⟩ : LineSetGeometry).segments ∧
    (⟨[(0, 0, 0), (1, 1, 1)], [(0, 1)]⟩ : LineSetGeometry).vertices.length =
      (⟨[(9, 9, 9), (7, 7, 7)], [(0, 1)]⟩ : LineSetGeometry).vertices.length ∧
    (⟨[(0, 0, 0), (1, 1, 1)], [(0, 1)]⟩ : LineSetGeometry).validate_mesh =
      (⟨[(9, 9, 9), (7, 7, 7)], [(0, 1)]⟩ : LineSetGeometry).validate_mesh :=
  ⟨rfl, rfl, C8_validation_pure _ _ rfl rfl⟩

/-! ### Lemmas about the validator -/

theorem le_foldl_min_iff (c x : Int) (xs : List Int) :
    c ≤ xs.foldl min x ↔ c ≤ x ∧ ∀ y ∈ xs, c ≤ y := by
  induction xs generalizing x with
  | nil => simp
  | cons a as ih =>
    rw [List.foldl_cons, ih, le_min_iff, List.forall_mem_cons]
    tauto

theorem foldl_max_lt_iff (c x : Int) (xs : List Int) :
    xs.foldl max x < c ↔ x < c ∧ ∀ y ∈ xs, y < c := by
  induction xs generalizing x with
  | nil => simp
  | cons a as ih =>
    rw [List.foldl_cons, ih, max_lt_iff, List.forall_mem_cons]
    tauto

theorem forall_segmentIndices_iff (segs : List (Int × Int)) (P : Int → Prop) :
    (∀ y ∈ segmentIndices segs, P y) ↔ ∀ p ∈ segs, P p.1 ∧ P p.2 := by
  induction segs with
  | nil => simp [segmentIndices]
  | cons s rest ih =>
    have h : segmentIndices (s :: rest) = s.1 :: s.2 :: segmentIndices rest := rfl
    rw [h]
    simp only [List.forall_mem_cons]
    rw [ih]
    tauto

theorem validateSegments_cons (s : Int × Int) (rest : List (Int × Int)) (n : Nat) :
    LineSetGeometry.validateSegments (s :: rest) n =
      (if (s.2 :: segmentIndices rest).foldl min s.1 < 0 then
        .error (.valueError "Segments may only have positive integers")
      else if (n : Int) ≤ (s.2 :: segmentIndices rest).foldl max s.1 then
        .error (.valueError "Segments expects more vertices than provided")
      else .ok true) := rfl

theorem validateSegments_ok_iff (s : Int × Int) (rest : List (Int × Int)) (n : Nat) :
    LineSetGeometry.validateSegments (s :: rest) n = .ok true ↔
      ∀ y ∈ segmentIndices (s :: rest), 0 ≤ y ∧ y < (n : Int) := by
  have hidx : segmentIndices (s :: rest) = s.1 :: s.2 :: segmentIndices rest := rfl
  rw [validateSegments_cons, hidx]
  constructor
  · intro h
    by_cases h1 : (s.2 :: segmentIndices rest).foldl min s.1 < 0
    · rw [if_pos h1] at h
      exact absurd h (by simp)
    · by_cases h2 : (n : Int) ≤ (s.2 :: segmentIndices rest).foldl max s.1
      · rw [if_neg h1, if_pos h2] at h
        exact absurd h (by simp)
      · push_neg at h1 h2
        have hmin := (le_foldl_min_iff 0 s.1 (s.2 :: segmentIndices rest)).mp h1
        have hmax := (foldl_max_lt_iff (n : Int) s.1 (s.2 :: segmentIndices rest)).mp h2
        intro y hy
        rcases List.mem_cons.mp hy with heq | hmem
        · subst heq
          exact ⟨hmin.1, hmax.1⟩
        · exact ⟨hmin.2 y hmem, hmax.2 y hmem⟩
  · intro hall
    have h1 : ¬ (s.2 :: segmentIndices rest).foldl min s.1 < 0 := by
      push_neg
      exact (le_foldl_min_iff 0 _ _).mpr
        ⟨(hall s.1 (List.mem_cons_self _ _)).1,
          fun y hy => (hall y (List.mem_cons_of_mem _ hy)).1⟩
    have h2 : ¬ (n : Int) ≤ (s.2 :: segmentIndices rest).foldl max s.1 := by
      push_neg
      exact (foldl_max_lt_iff (n : Int) _ _).mpr
        ⟨(hall s.1 (List.mem_cons_self _ _)).2,
          fun y hy => (hall y (List.mem_cons_of_mem _ hy)).2⟩
    rw [if_neg h1, if_neg h2]

theorem validateSegments_ok_or_valueError (segs : List (Int × Int)) (n : Nat) :
    LineSetGeometry.validateSegments segs n = .ok true ∨
      ∃ msg, LineSetGeometry.validateSegments segs n = .error (.valueError msg) := by
  match segs with
  | [] => exact Or.inr ⟨npEmptyMinMsg, rfl⟩
  | s :: rest =>
    rw [validateSegments_cons]
    split_ifs
    · exact Or.inr ⟨_, rfl⟩
    · exact Or.inr ⟨_, rfl⟩
    · exact Or.inl rfl

theorem validate_mesh_ok_ne_nil (g : LineSetGeometry)
    (h : g.validate_mesh = .ok true) : g.segments ≠ [] := by
  intro hnil
  rw [LineSetGeometry.validate_mesh, hnil] at h
  have hempty : LineSetGeometry.validateSegments [] g.vertices.length =
      .error (.valueError npEmptyMinMsg) := rfl
  rw [hempty] at h
  exact Except.noConfusion h

/-- C5 counterexample: a geometry with one vertex and an empty segment
sequence has every segment index (vacuously) inside [0, num_nodes), yet the
validator does not accept — it raises the ValueError of the empty
min-reduction, an error not triggered by any out-of-range index. -/
theorem C5_counterexample :
    LineSetGeometry.validate_mesh ⟨[(0, 0, 0)], []⟩ =
        .error (.valueError npEmptyMinMsg) ∧
    LineSetGeometry.validate_mesh ⟨[(0, 0, 0)], []⟩ ≠ .ok true :=
  ⟨rfl, fun h =>
    Except.noConfusion
      ((rfl : LineSetGeometry.validate_mesh ⟨[(0, 0, 0)], []⟩ =
        .error (.valueError npEmptyMinMsg)).symm.trans h)⟩

/-- C5 amended: for every geometry with a non-empty segment sequence,
validation accepts iff every segment index lies in [0, num_nodes); and the
validator only ever returns success or a ValueError (the InvalidGeometry
family), so it rejects exactly when some index is negative or ≥ num_nodes. -/
theorem C5_validation_range (g : LineSetGeometry) (h : g.segments ≠ []) :
    (g.validate_mesh = .ok true ↔
      ∀ p ∈ g.segments, 0 ≤ p.1 ∧ p.1 < (g.num_nodes : Int) ∧
        0 ≤ p.2 ∧ p.2 < (g.num_nodes : Int)) ∧
    (g.validate_mesh = .ok true ∨
      ∃ msg, g.validate_mesh = .error (.valueError msg)) := by
  obtain ⟨s, rest, hseg⟩ := List.exists_cons_of_ne_nil h
  constructor
  · simp only [LineSetGeometry.validate_mesh]
    rw [hseg, validateSegments_ok_iff, forall_segmentIndices_iff]
    constructor
    · intro hp p hmem
      obtain ⟨⟨a, b⟩, c, d2⟩ := hp p hmem
      exact ⟨a, b, c, d2⟩
    · intro hp p hmem
      obtain ⟨a, b, c, d2⟩ := hp p hmem
      exact ⟨⟨a, b⟩, c, d2⟩
  · simp only [LineSetGeometry.validate_mesh]
    exact validateSegments_ok_or_valueError g.segments g.vertices.length

/-- Witness for the amended C5 at a concrete in-range geometry. -/
theorem C5_validation_range_witness :
    (⟨[(0, 0, 0), (1, 0, 0)], [(0, 1)]⟩ : LineSetGeometry).segments ≠ [] ∧
    (((⟨[(0, 0, 0), (1, 0, 0)], [(0, 1)]⟩ : LineSetGeometry).validate_mesh = .ok true ↔
      ∀ p ∈ (⟨[(0, 0, 0), (1, 0, 0)], [(0, 1)]⟩ : LineSetGeometry).segments,
        0 ≤ p.1 ∧
          p.1 < ((⟨[(0, 0, 0), (1, 0, 0)], [(0, 1)]⟩ : LineSetGeometry).num_nodes : Int) ∧
        0 ≤ p.2 ∧
          p.2 < ((⟨[(0, 0, 0), (1, 0, 0)], [(0, 1)]⟩ : LineSetGeometry).num_nodes : Int)) ∧
    ((⟨[(0, 0, 0), (1, 0, 0)], [(0, 1)]⟩ : LineSetGeometry).validate_mesh = .ok true ∨
      ∃ msg, (⟨[(0, 0, 0), (1, 0, 0)], [(0, 1)]⟩ : LineSetGeometry).validate_mesh =
        .error (.valueError msg))) :=
  ⟨by simp, C5_validation_range _ (by simp)⟩

/-- C10: a geometry with an empty segment sequence never validates — the
min-reduction over the empty flattened index array raises ValueError, for
every vertex sequence. -/
theorem C10_empty_segments_never_validate (vertices : List Vector3) :
    LineSetGeometry.validate_mesh ⟨vertices, []⟩ =
      .error (.valueError npEmptyMinMsg) := rfl

/-! ### Lemmas about the exporter -/

theorem toVTK_cons (e : LineSetElement) (s0 : Int × Int) (rest : List (Int × Int))
    (h : e.geometry.segments = s0 :: rest) :
    e.toVTK = .ok
      { points := e.geometry.vertices
        lines := (s0 :: rest).map fun seg => (seg.1, seg.2)
        cellData :=
          ("Line Index",
              VTKDataArray.intArray ((groupLoop (s0 :: rest) s0.1 0).map Int.ofNat))
            :: e.data.map fun d => (d.name, VTKDataArray.scalarArray d.array)
        pointData := [] } := by
  unfold LineSetElement.toVTK
  rw [h]

theorem map_pair_eta (l : List (Int × Int)) :
    (l.map fun seg => (seg.1, seg.2)) = l := by
  induction l with
  | nil => rfl
  | cons s rest ih => simp [ih]

/-- C3 counterexample: an attribute declared at location "vertices" (whose
length 2 matches num_nodes) ends up in the cell-data collection of the
output, and the node-data (point-data) collection is empty. -/
theorem C3_counterexample :
    LineSetElement.toVTK
        ⟨⟨[(0, 0, 0), (1, 0, 0)], [(0, 1)]⟩, "line",
          [⟨"temp", "vertices", [1, 2]⟩]⟩ =
      .ok
        { points := [(0, 0, 0), (1, 0, 0)]
          lines := [(0, 1)]
          cellData := [("Line Index", VTKDataArray.intArray [0]),
            ("temp", VTKDataArray.scalarArray [1, 2])]
          pointData := [] } := rfl

/-- C3 amended: `toVTK` attaches every supplied attribute to the cell-data
collection under its original name, regardless of its declared location, and
leaves the node-data (point-data) collection empty. -/
theorem C3_all_attributes_to_cellData (e : LineSetElement) (s0 : Int × Int)
    (rest : List (Int × Int)) (h : e.geometry.segments = s0 :: rest) :
    ∃ out : VTKPolyData, e.toVTK = .ok out ∧ out.pointData = [] ∧
      ∀ d ∈ e.data, (d.name, VTKDataArray.scalarArray d.array) ∈ out.cellData := by
  refine ⟨_, toVTK_cons e s0 rest h, rfl, ?_⟩
  intro d hd
  exact List.mem_cons_of_mem _ (List.mem_map_of_mem _ hd)

/-- Witness for the amended C3 at a concrete element with one node-location
attribute. -/
theorem C3_all_attributes_to_cellData_witness :
    (⟨⟨[(0, 0, 0)], [(0, 0)]⟩, "line",
        [⟨"phi", "vertices", [3]⟩]⟩ : LineSetElement).geometry.segments =
      (0, 0) :: [] ∧
    (∃ out : VTKPolyData,
      (⟨⟨[(0, 0, 0)], [(0, 0)]⟩, "line",
          [⟨"phi", "vertices", [3]⟩]⟩ : LineSetElement).toVTK = .ok out ∧
      out.pointData = [] ∧
      ∀ d ∈ (⟨⟨[(0, 0, 0)], [(0, 0)]⟩, "line",
          [⟨"phi", "vertices", [3]⟩]⟩ : LineSetElement).data,
        (d.name, VTKDataArray.scalarArray d.array) ∈ out.cellData) :=
  ⟨rfl, C3_all_attributes_to_cellData _ _ _ rfl⟩

/-- C4 counterexample: an attribute at location "segments" with array length
3 against 2 segments — the spec demands an AttributeLengthMismatch failure,
but `toVTK` succeeds and attaches the mismatched array. -/
theorem C4_counterexample :
    LineSetElement.toVTK
        ⟨⟨[(0, 0, 0), (1, 0, 0), (2, 0, 0)], [(0, 1), (1, 2)]⟩, "line",
          [⟨"a", "segments", [1, 2, 3]⟩]⟩ =
      .ok
        { points := [(0, 0, 0), (1, 0, 0), (2, 0, 0)]
          lines := [(0, 1), (1, 2)]
          cellData := [("Line Index", VTKDataArray.intArray [0, 0]),
            ("a", VTKDataArray.scalarArray [1, 2, 3])]
          pointData := [] } := rfl

/-- C4 amended: `toVTK` performs no attribute-length verification at
assembly time — for any element with a non-empty segment sequence, even an
attribute whose array length differs from the expected count for its
declared location causes no failure and is attached under its name. -/
theorem C4_no_length_check (e : LineSetElement) (s0 : Int × Int)
    (rest : List (Int × Int)) (h : e.geometry.segments = s0 :: rest)
    (d : ProjectElementData) (hd : d ∈ e.data)
    (_hlen : d.array.length ≠ e.geometry.location_length d.location) :
    ∃ out : VTKPolyData, e.toVTK = .ok out ∧
      (d.name, VTKDataArray.scalarArray d.array) ∈ out.cellData := by
  refine ⟨_, toVTK_cons e s0 rest h, ?_⟩
  exact List.mem_cons_of_mem _ (List.mem_map_of_mem _ hd)

/-- Witness for the amended C4: the length-3 "segments" attribute against 2
segments is exported without error. -/
theorem C4_no_length_check_witness :
    (⟨⟨[(0, 0, 0), (1, 0, 0), (2, 0, 0)], [(0, 1), (1, 2)]⟩, "line",
        [⟨"a", "segments", [1, 2, 3]⟩]⟩ : LineSetElement).geometry.segments =
      (0, 1) :: [(1, 2)] ∧
    (⟨"a", "segments", [1, 2, 3]⟩ : ProjectElementData) ∈
      [(⟨"a", "segments", [1, 2, 3]⟩ : ProjectElementData)] ∧
    ([1, 2, 3] : List ℚ).length ≠
      (⟨[(0, 0, 0), (1, 0, 0), (2, 0, 0)],
        [(0, 1), (1, 2)]⟩ : LineSetGeometry).location_length "segments" ∧
    (∃ out : VTKPolyData,
      (⟨⟨[(0, 0, 0), (1, 0, 0), (2, 0, 0)], [(0, 1), (1, 2)]⟩, "line",
          [⟨"a", "segments", [1, 2, 3]⟩]⟩ : LineSetElement).toVTK = .ok out ∧
      (("a" : String), VTKDataArray.scalarArray [1, 2, 3]) ∈ out.cellData) :=
  ⟨rfl, List.mem_cons_self _ _, by decide,
    C4_no_length_check
      ⟨⟨[(0, 0, 0), (1, 0, 0), (2, 0, 0)], [(0, 1), (1, 2)]⟩, "line",
        [⟨"a", "segments", [1, 2, 3]⟩]⟩
      (0, 1) [(1, 2)] rfl
      ⟨"a", "segments", [1, 2, 3]⟩ (List.mem_cons_self _ _) (by decide)⟩

/-- C6: for every element whose geometry validates, export succeeds and the
output has one point per vertex in order, one 2-point line cell per segment
in order carrying the segment's indices unmodified, and the integer
cell-data array "Line Index" equal to the segment-grouper output. -/
theorem C6_export_shape (e : LineSetElement)
    (hv : e.geometry.validate_mesh = .ok true) :
    ∃ out : VTKPolyData, e.toVTK = .ok out ∧
      out.points = e.geometry.vertices ∧
      out.points.length = e.geometry.num_nodes ∧
      out.lines = e.geometry.segments ∧
      out.lines.length = e.geometry.num_cells ∧
      ("Line Index",
          VTKDataArray.intArray ((segGroups e.geometry.segments).map Int.ofNat)) ∈
        out.cellData := by
  obtain ⟨s0, rest, hseg⟩ :=
    List.exists_cons_of_ne_nil (validate_mesh_ok_ne_nil e.geometry hv)
  refine ⟨_, toVTK_cons e s0 rest hseg, rfl, rfl, ?_, ?_, ?_⟩
  · rw [map_pair_eta, hseg]
  · rw [map_pair_eta]
    simp only [LineSetGeometry.num_cells, hseg]
  · rw [hseg]
    exact List.mem_cons_self _ _

/-- Witness for C6 at a concrete validated two-vertex, one-segment
element. -/
theorem C6_export_shape_witness :
    (⟨⟨[(0, 0, 0), (1, 0, 0)], [(0, 1)]⟩, "line",
        [] ⟩ : LineSetElement).geometry.validate_mesh = .ok true ∧
    (∃ out : VTKPolyData,
      (⟨⟨[(0, 0, 0), (1, 0, 0)], [(0, 1)]⟩, "line", []⟩ : LineSetElement).toVTK =
        .ok out ∧
      out.points =
        (⟨⟨[(0, 0, 0), (1, 0, 0)], [(0, 1)]⟩, "line",
          []⟩ : LineSetElement).geometry.vertices ∧
      out.points.length =
        (⟨⟨[(0, 0, 0), (1, 0, 0)], [(0, 1)]⟩, "line",
          []⟩ : LineSetElement).geometry.num_nodes ∧
      out.lines =
        (⟨⟨[(0, 0, 0), (1, 0, 0)], [(0, 1)]⟩, "line",
          []⟩ : LineSetElement).geometry.segments ∧
      out.lines.length =
        (⟨⟨[(0, 0, 0), (1, 0, 0)], [(0, 1)]⟩, "line",
          []⟩ : LineSetElement).geometry.num_cells ∧
      ("Line Index",
          VTKDataArray.intArray
            ((segGroups (⟨⟨[(0, 0, 0), (1, 0, 0)], [(0, 1)]⟩, "line",
              []⟩ : LineSetElement).geometry.segments).map Int.ofNat)) ∈
        out.cellData) :=
  ⟨rfl, C6_export_shape _ rfl⟩

/-- C9: the exporter has no side effects on its inputs — in the
state-passing reading, the element state after a successful call (its
geometry's vertex and segment sequences and its attribute list) is exactly
the state before, and the produced mesh is the `toVTK` value. -/
theorem C9_export_no_side_effects (e post : LineSetElement) (out : VTKPolyData)
    (h : e.toVTK_run = .ok (post, out)) :
    post.geometry.vertices = e.geometry.vertices ∧
    post.geometry.segments = e.geometry.segments ∧
    post.data = e.data ∧
    e.toVTK = .ok out := by
  rcases htv : e.toVTK with err | o
  · simp only [LineSetElement.toVTK_run, htv] at h
    exact Except.noConfusion h
  · simp only [LineSetElement.toVTK_run, htv, Except.ok.injEq, Prod.mk.injEq] at h
    obtain ⟨h1, h2⟩ := h
    subst h1
    subst h2
    exact ⟨rfl, rfl, rfl, rfl⟩

/-- Witness for C9 at a concrete element with one attribute. -/
theorem C9_export_no_side_effects_witness :
    (⟨⟨[(0, 0, 0), (1, 0, 0)], [(0, 1)]⟩, "line",
        [⟨"d", "segments", [5]⟩]⟩ : LineSetElement).toVTK_run =
      .ok
        (⟨⟨[(0, 0, 0), (1, 0, 0)], [(0, 1)]⟩, "line", [⟨"d", "segments", [5]⟩]⟩,
          { points := [(0, 0, 0), (1, 0, 0)]
            lines := [(0, 1)]
            cellData := [("Line Index", VTKDataArray.intArray [0]),
              ("d", VTKDataArray.scalarArray [5])]
            pointData := [] }) ∧
    ((⟨⟨[(0, 0, 0), (1, 0, 0)], [(0, 1)]⟩, "line",
        [⟨"d", "segments", [5]⟩]⟩ : LineSetElement).geometry.vertices =
      (⟨⟨[(0, 0, 0), (1, 0, 0)], [(0, 1)]⟩, "line",
        [⟨"d", "segments", [5]⟩]⟩ : LineSetElement).geometry.vertices ∧
    (⟨⟨[(0, 0, 0), (1, 0, 0)], [(0, 1)]⟩, "line",
        [⟨"d", "segments", [5]⟩]⟩ : LineSetElement).geometry.segments =
      (⟨⟨[(0, 0, 0), (1, 0, 0)], [(0, 1)]⟩, "line",
        [⟨"d", "segments", [5]⟩]⟩ : LineSetElement).geometry.segments ∧
    (⟨⟨[(0, 0, 0), (1, 0, 0)], [(0, 1)]⟩, "line",
        [⟨"d", "segments", [5]⟩]⟩ : LineSetElement).data =
      (⟨⟨[(0, 0, 0), (1, 0, 0)], [(0, 1)]⟩, "line",
        [⟨"d", "segments", [5]⟩]⟩ : LineSetElement).data ∧
    (⟨⟨[(0, 0, 0), (1, 0, 0)], [(0, 1)]⟩, "line",
        [⟨"d", "segments", [5]⟩]⟩ : LineSetElement).toVTK =
      .ok
        { points := [(0, 0, 0), (1, 0, 0)]
          lines := [(0, 1)]
          cellData := [("Line Index", VTKDataArray.intArray [0]),
            ("d", VTKDataArray.scalarArray [5])]
          pointData := [] }) :=
  ⟨rfl, C9_export_no_side_effects _ _ _ rfl⟩

end OMF
